import Mathlib

/-!
Verification of `pyidm/utils.py` (PyIDM download manager utilities).

We shallowly embed the relevant functions of `pyidm/utils.py`:

* `size_splitter` — splits a file size into a list of byte-range names,
* `get_seg_size` — recovers a segment size from a range name such as `"200-1000"`,
* `get_range_list` — plans download segments from file size, configured
  segment size and maximum connection count,
* `set_curl_options` — configures a curl handle from the global config,
* `log_recorder` — the log drain loop, modelled as a transition system.

Python integers are arbitrary-precision; sizes are non-negative, so sizes
are modelled as `Nat` and the signed arithmetic of `get_seg_size` as `Int`.
-/

/-- Byte ranges, as produced by the loop inside `size_splitter`
(`utils.py` lines 395-402).  Each recursive step emits the pair `(x, y)`
where `y = x + span - 1`, except that the remainder is absorbed:
when `size1 - y < span` (with `size1` the decremented size, and in Python
a negative difference also satisfies this, matching `Nat` truncation since
`span ≥ 1` in every reachable call) the end is forced to `size1`.
The counter `n` is the remaining number of loop iterations (`parts - i`). -/
def size_splitter_go (span size1 : Nat) : Nat → Nat → List (Nat × Nat)
  | 0, _ => []
  | n + 1, x =>
    let y := x + span - 1
    let y2 := if size1 - y < span then size1 else y
    (x, y2) :: size_splitter_go span size1 n (y2 + 1)

/-- Function `size_splitter(size, part_size)` from `utils.py` lines 382-404, with the
string formatting of each range split off (see `size_splitter`).
`size == 0` returns the sentinel `0-0` range; otherwise
`span = part_size if part_size <= size else size`,
`parts = max(size // span, 1)`, and the loop walks from `x = 0`.
Python raises `ZeroDivisionError` when `part_size = 0`; the claims only
concern `part_size ≥ 1`, where `Nat` division matches Python floor division. -/
def size_splitter_ranges (size part_size : Nat) : List (Nat × Nat) :=
  if size = 0 then [(0, 0)]
  else
    let span := if part_size ≤ size then part_size else size
    let parts := max (size / span) 1
    size_splitter_go span (size - 1) parts 0

/-- Function `size_splitter` proper: each range `(x, y)` is rendered as the string
`f'{x}-{y}'`. -/
def size_splitter (size part_size : Nat) : List String :=
  (size_splitter_ranges size part_size).map
    (fun p => toString p.1 ++ "-" ++ toString p.2)

/-- Python `str.split('-')`, at character level: splits at every `'-'`,
keeping empty fields (`''.split('-') = ['']`, `'-5-3'.split('-') = ['', '5', '3']`). -/
def split_on_dash : List Char → List (List Char)
  | [] => [[]]
  | c :: rest =>
    let r := split_on_dash rest
    if c = '-' then [] :: r
    else
      match r with
      | f :: t => (c :: f) :: t
      | [] => [[c]]

/-- Digit-string accumulator for `parse_int`: `some` of the decimal value
when every character is a digit, `none` otherwise. -/
def parse_digits_aux (acc : Nat) : List Char → Option Nat
  | [] => some acc
  | c :: rest =>
    if c.isDigit then parse_digits_aux (acc * 10 + (c.toNat - 48)) rest
    else none

/-- Python `int(s)` on a field of a range name: an optional leading `'-'`
followed by a non-empty run of decimal digits; anything else raises
`ValueError`, modelled as `none`.  (Python's `int` also tolerates
surrounding whitespace, a `'+'` sign and `'_'` separators; no such field
reaches `get_seg_size` and the claims do not depend on them.) -/
def parse_int (cs : List Char) : Option Int :=
  match cs with
  | [] => none
  | '-' :: rest =>
    match rest with
    | [] => none
    | _ :: _ => (parse_digits_aux 0 rest).map (fun n => -(n : Int))
  | _ :: _ => (parse_digits_aux 0 cs).map (fun n => (n : Int))

/-- Function `get_seg_size(seg)` from `utils.py` lines 447-454.
`a, b = int(seg.split('-')[0]), int(seg.split('-')[1])`;
result is `b - a + 1` if `b > 0` else `0`; any failure (a missing field,
`IndexError`, or an unparsable integer, `ValueError` — the Python
`except` path) yields `0`. -/
def get_seg_size (seg : String) : Int :=
  match ((split_on_dash seg.data).get? 0).bind parse_int,
        ((split_on_dash seg.data).get? 1).bind parse_int with
  | some a, some b => if b > 0 then b - a + 1 else 0
  | _, _ => 0

/-- The successful-parse layer of `get_seg_size`, written separately so that
theorems can quantify over "the parsed range `(a, b)`": `some (a, b)` when
both of the first two `'-'`-separated fields of `seg` parse as integers,
`none` on the malformed inputs where `get_seg_size`'s `except` path fires. -/
def parse_seg (seg : String) : Option (Int × Int) :=
  match ((split_on_dash seg.data).get? 0).bind parse_int,
        ((split_on_dash seg.data).get? 1).bind parse_int with
  | some a, some b => some (a, b)
  | _, _ => none

/-- Predicate: `start` to `stop` is exactly covered by the range list: the first range
starts at `start`, every range `(x, y)` has `x ≤ y`, each subsequent range
starts right after the previous one ends (hence the ranges are ordered,
contiguous and non-overlapping), and the last range ends at `stop`. -/
def coversB (start stop : Nat) : List (Nat × Nat) → Bool
  | [] => false
  | [(x, y)] => decide (start = x) && decide (x ≤ y) && decide (y = stop)
  | (x, y) :: p :: rest =>
    decide (start = x) && decide (x ≤ y) && coversB (y + 1) stop (p :: rest)

/-- The segment loop of `get_range_list` (`utils.py` lines 1024-1029),
by remaining iteration count: while more than one iteration remains,
`end = start + seg_size - 1` and the next start is `start + seg_size`;
the final iteration emits `end = file_size - 1`. -/
def get_range_list_go (seg_size file_size : Nat) (start : Nat) :
    Nat → List (Nat × Nat)
  | 0 => []
  | 1 => [(start, file_size - 1)]
  | n + 2 =>
    (start, start + seg_size - 1) ::
      get_range_list_go seg_size file_size (start + seg_size) (n + 1)

/-- The non-empty branch of `get_range_list` (`utils.py` lines 1019-1031):
`max_seg_nums = file_size // segment_size or 1` (Python `or`: `1` replaces a
falsy `0` quotient), `seg_nums = min(max_seg_nums, max_connections)`,
`seg_size = file_size // seg_nums`, then the loop from `start = 0`. -/
def get_range_list_ranges (file_size segment_size max_connections : Nat) :
    List (Nat × Nat) :=
  let max_seg_nums := max (file_size / segment_size) 1
  let seg_nums := min max_seg_nums max_connections
  let seg_size := file_size / seg_nums
  get_range_list_go seg_size file_size 0 seg_nums

/-- Function `get_range_list(file_size)` from `utils.py` lines 1008-1031, with
`config.segment_size` and `config.max_connections` passed explicitly.
`file_size == 0` returns `[None]`; otherwise a list of `[start, end]`
pairs (each wrapped in `some`). -/
def get_range_list (file_size segment_size max_connections : Nat) :
    List (Option (Nat × Nat)) :=
  if file_size = 0 then [none]
  else (get_range_list_ranges file_size segment_size max_connections).map some

/-- The fields of the global `config` module read by `set_curl_options`. -/
structure CurlConfig where
  HEADERS : List (String × String)
  proxy : String
  referer_url : String
  use_cookies : Bool
  cookie_file_path : String
  username : String
  password : String
  log_level : Nat
deriving DecidableEq

/-- The curl options touched by `set_curl_options`, as an option-value store:
`none` means the option was never set on this handle. -/
structure CurlHandle where
  httpheader : Option (List String) := none
  proxy : Option String := none
  referer : Option String := none
  autoreferer : Option Nat := none
  cookiefile : Option String := none
  username : Option String := none
  password : Option String := none
  followlocation : Option Nat := none
  maxredirs : Option Nat := none
  nosignal : Option Nat := none
  noprogress : Option Nat := none
  cainfo : Option String := none
  proxy_cainfo : Option String := none
  connecttimeout : Option Nat := none
  low_speed_limit : Option Nat := none
  low_speed_time : Option Nat := none
  verbose : Option Nat := none
  headeropt : Option Nat := none
  timeout : Option Nat := none
deriving DecidableEq

/-- A fresh pycurl handle: no option set yet. -/
def fresh_handle : CurlHandle := {}

/-- Stand-in for the CA-bundle path returned by `certifi.where()`
(an external library call; its value is irrelevant to the claims). -/
def certifi_where : String := "cacert.pem"

set_option maxHeartbeats 1000000 in
/-- Function `set_curl_options(c, http_headers)` from `utils.py` lines 72-130, as the
sequence of `c.setopt` calls it performs, in source order.  Python truthiness:
`http_headers or config.HEADERS` replaces both `None` and an empty dict by
the default headers; `if config.referer_url:` and
`if config.username or config.password:` test for non-empty strings. -/
def set_curl_options (cfg : CurlConfig)
    (http_headers : Option (List (String × String))) (c : CurlHandle) :
    CurlHandle :=
  let hh := match http_headers with
    | none => cfg.HEADERS
    | some l => if l = [] then cfg.HEADERS else l
  let headers := hh.map (fun kv => kv.1 ++ ":" ++ kv.2)
  let c := { c with httpheader := some headers }
  let c := { c with proxy := some cfg.proxy }
  let c :=
    if cfg.referer_url ≠ "" then { c with referer := some cfg.referer_url }
    else { c with autoreferer := some 1 }
  let c :=
    if cfg.use_cookies then { c with cookiefile := some cfg.cookie_file_path }
    else c
  let c :=
    if cfg.username ≠ "" ∨ cfg.password ≠ "" then
      { c with username := some cfg.username, password := some cfg.password }
    else c
  let c := { c with followlocation := some 1 }
  let c := { c with maxredirs := some 10 }
  let c := { c with nosignal := some 1 }
  let c := { c with noprogress := some 1 }
  let c := { c with cainfo := some certifi_where }
  let c := { c with proxy_cainfo := some certifi_where }
  let c := { c with connecttimeout := some 10 }
  let c := { c with low_speed_limit := some 1024 }
  let c := { c with low_speed_time := some 10 }
  let c :=
    if 4 ≤ cfg.log_level then { c with verbose := some 1 }
    else { c with verbose := some 0 }
  let c := { c with headeropt := some 0 }
  let c := { c with timeout := some 300 }
  let c := { c with autoreferer := some 1 }
  c

/-- State of the `log_recorder` loop (`utils.py` lines 768-794): the pending
FIFO queue `config.log_recorder_q`, the in-memory `buffer` string, and the
contents of the `log.txt` file. -/
structure LogState where
  queue : List String
  buffer : String
  file : String
deriving DecidableEq

/-- The observable input of one iteration of the `log_recorder` loop:
the records enqueued (in order) since the previous iteration, the value
of `config.terminate` read by this iteration, and whether the disk
append would succeed (`writeOk = false` is the `except` path). -/
structure LogEvent where
  arrivals : List String
  terminate : Bool
  writeOk : Bool
deriving DecidableEq

/-- The body of one non-terminating `log_recorder` iteration
(`utils.py` lines 783-794): drain the whole queue into `buffer` in FIFO
order; then, if `buffer` is non-empty, append it to the file and reset it —
unless the write fails, in which case the error is printed and the buffer
is kept for the next cycle.  The append is modelled all-or-nothing. -/
def drainStep (writeOk : Bool) (s : LogState) : LogState :=
  let buf := s.queue.foldl (fun r m => r ++ m) s.buffer
  if buf = "" then { queue := [], buffer := buf, file := s.file }
  else if writeOk then { queue := [], buffer := "", file := s.file ++ buf }
  else { queue := [], buffer := buf, file := s.file }

/-- The whole `log_recorder` loop (`utils.py` lines 778-794) over a finite event
schedule.  Each iteration first receives its arrivals into the queue, then
checks `config.terminate` — and `break`s immediately when it is set, before
draining the queue or flushing the buffer — and otherwise runs `drainStep`. -/
def log_recorder_run : List LogEvent → LogState → LogState
  | [], s => s
  | e :: rest, s =>
    let s0 : LogState :=
      { queue := s.queue ++ e.arrivals, buffer := s.buffer, file := s.file }
    if e.terminate then s0
    else log_recorder_run rest (drainStep e.writeOk s0)

lemma coversB_singleton_iff (start stop x y : Nat) :
    coversB start stop [(x, y)] = true ↔ start = x ∧ x ≤ y ∧ y = stop := by
  simp [coversB, and_assoc]

lemma coversB_cons2_iff (start stop x y : Nat) (p : Nat × Nat)
    (rest : List (Nat × Nat)) :
    coversB start stop ((x, y) :: p :: rest) = true ↔
      start = x ∧ x ≤ y ∧ coversB (y + 1) stop (p :: rest) = true := by
  simp [coversB, and_assoc]

lemma coversB_start_le : ∀ (L : List (Nat × Nat)) (start stop : Nat),
    coversB start stop L = true → start ≤ stop := by
  intro L
  induction L with
  | nil => intro start stop h; simp [coversB] at h
  | cons hd rest ih =>
    intro start stop h
    obtain ⟨x, y⟩ := hd
    cases rest with
    | nil =>
      rw [coversB_singleton_iff] at h
      omega
    | cons q t =>
      rw [coversB_cons2_iff] at h
      have := ih (y + 1) stop h.2.2
      omega

lemma coversB_sum : ∀ (L : List (Nat × Nat)) (start stop : Nat),
    coversB start stop L = true →
    (L.map (fun p => p.2 + 1 - p.1)).sum = stop + 1 - start := by
  intro L
  induction L with
  | nil => intro start stop h; simp [coversB] at h
  | cons hd rest ih =>
    intro start stop h
    obtain ⟨x, y⟩ := hd
    cases rest with
    | nil =>
      rw [coversB_singleton_iff] at h
      simp
      omega
    | cons q t =>
      rw [coversB_cons2_iff] at h
      have h1 := ih (y + 1) stop h.2.2
      have h2 := coversB_start_le (q :: t) (y + 1) stop h.2.2
      simp at h1 ⊢
      omega

lemma coversB_cons_mid (x y stop : Nat) (rest : List (Nat × Nat))
    (hxy : x ≤ y) (hrest : coversB (y + 1) stop rest = true) :
    coversB x stop ((x, y) :: rest) = true := by
  cases rest with
  | nil => simp [coversB] at hrest
  | cons p t => exact (coversB_cons2_iff x stop x y p t).mpr ⟨rfl, hxy, hrest⟩

/-- The loop of `size_splitter` covers `[x, size1]` provided the remaining
iteration count `n` fits: the first `n - 1` steps fit fully before `size1`
and the `n`-th step reaches past it (so the remainder-absorption branch
fires exactly on the last step). -/
lemma size_splitter_go_covers (span size1 : Nat) :
    ∀ (n x : Nat), 1 ≤ span → 1 ≤ n → x + span * n ≤ size1 + 1 →
      size1 + 1 < x + span * n + span →
      coversB x size1 (size_splitter_go span size1 n x) = true := by
  intro n
  induction n with
  | zero => intro x hspan h1 h2 h3; omega
  | succ m ih =>
    intro x hspan h1 h2 h3
    cases m with
    | zero =>
      have e : span * 1 = span := by ring
      rw [e] at h2 h3
      have habs : size1 - (x + span - 1) < span := by omega
      simp only [size_splitter_go, if_pos habs]
      exact (coversB_singleton_iff x size1 x size1).mpr ⟨rfl, by omega, rfl⟩
    | succ k =>
      have e2 : span * (k + 1) = span * k + span := by ring
      have e3 : span * (k + 1 + 1) = span * k + span + span := by ring
      have habs : ¬ size1 - (x + span - 1) < span := by omega
      simp only [size_splitter_go, if_neg habs]
      have hy : x + span - 1 + 1 = x + span := by omega
      refine coversB_cons_mid x (x + span - 1) size1 _ (by omega) ?_
      rw [hy]
      exact ih (x + span) hspan (by omega) (by omega) (by omega)

/-- C2 (amended): for every `size ≥ 1` and `partSize ≥ 1`,
`size_splitter` returns ranges that are ordered, contiguous and
non-overlapping (`coversB`: the first starts at `0`, each next range starts
right after the previous ends), whose final range ends at `size - 1`, and
whose lengths sum exactly to `size`.  (The claim's `size ≥ 0` fails at
`size = 0`, where the sentinel `0-0` is returned; see the counterexample.) -/
theorem size_splitter_covers_and_sums (size part_size : Nat)
    (hs : 1 ≤ size) (hp : 1 ≤ part_size) :
    coversB 0 (size - 1) (size_splitter_ranges size part_size) = true ∧
    ((size_splitter_ranges size part_size).map
        (fun p => p.2 + 1 - p.1)).sum = size := by
  have hsz : ¬ size = 0 := by omega
  have hcov : coversB 0 (size - 1) (size_splitter_ranges size part_size)
      = true := by
    unfold size_splitter_ranges
    rw [if_neg hsz]
    have hspan1 : 1 ≤ (if part_size ≤ size then part_size else size) := by
      split <;> omega
    have hspan_le : (if part_size ≤ size then part_size else size) ≤ size := by
      split <;> omega
    set span := if part_size ≤ size then part_size else size with hspan_def
    have hdivpos : 1 ≤ size / span := (Nat.one_le_div_iff (by omega)).mpr
      hspan_le
    have hparts : max (size / span) 1 = size / span := by omega
    show coversB 0 (size - 1)
      (size_splitter_go span (size - 1) (max (size / span) 1) 0) = true
    rw [hparts]
    have hdm : span * (size / span) + size % span = size :=
      Nat.div_add_mod size span
    have hmod : size % span < span := Nat.mod_lt size (by omega)
    exact size_splitter_go_covers span (size - 1) (size / span) 0 hspan1
      hdivpos (by omega) (by omega)
  refine ⟨hcov, ?_⟩
  have := coversB_sum (size_splitter_ranges size part_size) 0 (size - 1) hcov
  omega

/-- C2 counterexample: at `size = 0` (allowed by the claim's `size ≥ 0`)
`size_splitter` returns the sentinel range `0-0`, whose length sums to `1`,
not to `size = 0` — and its end `0` is not `size - 1` of an empty file. -/
theorem size_splitter_zero_size_breaks_sum :
    size_splitter_ranges 0 300 = [(0, 0)] ∧
    ((size_splitter_ranges 0 300).map (fun p => p.2 + 1 - p.1)).sum = 1 ∧
    (1 : Nat) ≠ 0 := by
  refine ⟨rfl, rfl, by decide⟩

/-- Witness for C2 at `size = 1000`, `partSize = 300`. -/
theorem size_splitter_covers_and_sums_witness :
    1 ≤ 1000 ∧ 1 ≤ 300 ∧
      (coversB 0 (1000 - 1) (size_splitter_ranges 1000 300) = true ∧
        ((size_splitter_ranges 1000 300).map
            (fun p => p.2 + 1 - p.1)).sum = 1000) :=
  ⟨by decide, by decide, size_splitter_covers_and_sums 1000 300 (by decide)
    (by decide)⟩

/-- C4 counterexample: `split(1000, 300)` does not return the four ranges
`(0,299),(300,599),(600,899),(900,999)` claimed by the spec. -/
theorem size_splitter_1000_300_not_four_parts :
    size_splitter 1000 300 ≠ ["0-299", "300-599", "600-899", "900-999"] := by
  decide

/-- C4 (amended): `split(1000, 300)` returns exactly the three ranges
`(0,299),(300,599),(600,999)`, in that order: since `1000 // 300 = 3`, only
three parts are produced and the 100-byte remainder is absorbed into the
last part (whose end is forced to `size - 1 = 999`), rather than emitted
as a fourth range. -/
theorem size_splitter_1000_300_three_parts :
    size_splitter 1000 300 = ["0-299", "300-599", "600-999"] ∧
    size_splitter_ranges 1000 300 = [(0, 299), (300, 599), (600, 999)] := by
  exact ⟨rfl, rfl⟩

/-- C10: for every `partSize ≥ 1`, `split(1, partSize)` returns the single
range `(0,0)` — exactly the value `split(0, partSize)` returns as the
empty-file sentinel — so a one-byte plan is indistinguishable from the
empty-file sentinel, and `get_seg_size` of its sole range name `"0-0"` is
`0` (the sentinel path `b > 0` fails), not `1`. -/
theorem one_byte_split_equals_empty_sentinel (part_size : Nat)
    (hp : 1 ≤ part_size) :
    size_splitter_ranges 1 part_size = [(0, 0)] ∧
    size_splitter_ranges 0 part_size = [(0, 0)] ∧
    size_splitter 1 part_size = size_splitter 0 part_size ∧
    get_seg_size "0-0" = 0 ∧ (0 : Int) ≠ 1 := by
  have hspan : (if part_size ≤ 1 then part_size else 1) = 1 := by
    split <;> omega
  have h1 : size_splitter_ranges 1 part_size = [(0, 0)] := by
    unfold size_splitter_ranges
    rw [if_neg one_ne_zero]
    show size_splitter_go (if part_size ≤ 1 then part_size else 1) (1 - 1)
      (max (1 / (if part_size ≤ 1 then part_size else 1)) 1) 0 = [(0, 0)]
    rw [hspan]
    decide
  have h0 : size_splitter_ranges 0 part_size = [(0, 0)] := rfl
  refine ⟨h1, h0, ?_, by decide, by decide⟩
  unfold size_splitter
  rw [h0, h1]

/-- Witness for C10 at `partSize = 2`. -/
theorem one_byte_split_equals_empty_sentinel_witness :
    1 ≤ 2 ∧
      (size_splitter_ranges 1 2 = [(0, 0)] ∧
        size_splitter_ranges 0 2 = [(0, 0)] ∧
        size_splitter 1 2 = size_splitter 0 2 ∧
        get_seg_size "0-0" = 0 ∧ (0 : Int) ≠ 1) :=
  ⟨by decide, one_byte_split_equals_empty_sentinel 2 (by decide)⟩

lemma get_range_list_go_length (seg_size file_size : Nat) :
    ∀ (n start : Nat), (get_range_list_go seg_size file_size start n).length = n
  | 0, _ => rfl
  | 1, _ => rfl
  | n + 2, start => by
    simp only [get_range_list_go, List.length_cons]
    rw [get_range_list_go_length seg_size file_size (n + 1) (start + seg_size)]

/-- The loop of `get_range_list` covers `[start, file_size - 1]` whenever the
first `n - 1` equal-sized segments fit below `file_size - 1` (the final
segment always ends at `file_size - 1`). -/
lemma get_range_list_go_covers (seg_size file_size : Nat)
    (hss : 1 ≤ seg_size) :
    ∀ (n start : Nat), 1 ≤ n → start + (n - 1) * seg_size ≤ file_size - 1 →
      coversB start (file_size - 1)
        (get_range_list_go seg_size file_size start n) = true := by
  intro n
  induction n with
  | zero => intro start h1; omega
  | succ m ih =>
    intro start h1 h2
    cases m with
    | zero =>
      simp only [get_range_list_go]
      exact (coversB_singleton_iff start (file_size - 1) start
        (file_size - 1)).mpr ⟨rfl, by omega, rfl⟩
    | succ k =>
      have e2 : (k + 1) * seg_size = k * seg_size + seg_size := by ring
      have e3 : (k + 1 + 1 - 1) * seg_size = k * seg_size + seg_size := by
        have : k + 1 + 1 - 1 = k + 1 := by omega
        rw [this]; ring
      have e4 : (k + 1 - 1) * seg_size = k * seg_size := rfl
      rw [e3] at h2
      simp only [get_range_list_go]
      have hy : start + seg_size - 1 + 1 = start + seg_size := by omega
      refine coversB_cons_mid start (start + seg_size - 1) (file_size - 1) _
        (by omega) ?_
      rw [hy]
      exact ih (start + seg_size) (by omega) (by omega)

lemma get_range_list_ranges_eq (fs ss mc : Nat) :
    get_range_list_ranges fs ss mc =
      get_range_list_go (fs / min (max (fs / ss) 1) mc) fs 0
        (min (max (fs / ss) 1) mc) := rfl

/-- C3: for every `fileSize ≥ 1`, `segmentSize ≥ 1`, `maxConnections ≥ 1`,
`get_range_list` returns exactly
`min(max(fileSize // segmentSize, 1), maxConnections)` ranges, and those
ranges are ordered, contiguous, non-overlapping and fully cover
`[0, fileSize - 1]` (`coversB`). -/
theorem get_range_list_count_and_coverage
    (fs ss mc : Nat) (h1 : 1 ≤ fs) (h2 : 1 ≤ ss) (h3 : 1 ≤ mc) :
    (get_range_list fs ss mc).length = min (max (fs / ss) 1) mc ∧
    coversB 0 (fs - 1) (get_range_list_ranges fs ss mc) = true ∧
    get_range_list fs ss mc = (get_range_list_ranges fs ss mc).map some := by
  have hfs : ¬ fs = 0 := by omega
  have hmap : get_range_list fs ss mc
      = (get_range_list_ranges fs ss mc).map some := by
    unfold get_range_list
    rw [if_neg hfs]
  have hn1 : 1 ≤ min (max (fs / ss) 1) mc := by omega
  have hnfs : min (max (fs / ss) 1) mc ≤ fs := by
    have := Nat.div_le_self fs ss
    omega
  have hcov : coversB 0 (fs - 1) (get_range_list_ranges fs ss mc) = true := by
    rw [get_range_list_ranges_eq]
    set n := min (max (fs / ss) 1) mc with hn
    set q := fs / n with hq
    have hq1 : 1 ≤ q := (Nat.one_le_div_iff (by omega)).mpr hnfs
    have hA : q * n ≤ fs := Nat.div_mul_le_self fs n
    have hB : (n - 1) * q = n * q - q := by rw [tsub_mul, one_mul]
    have hC : n * q = q * n := Nat.mul_comm n q
    exact get_range_list_go_covers q fs hq1 n 0 hn1 (by omega)
  refine ⟨?_, hcov, hmap⟩
  rw [hmap, List.length_map, get_range_list_ranges_eq]
  exact get_range_list_go_length _ fs _ 0

/-- Witness for C3 at `fileSize = 1000`, `segmentSize = 300`,
`maxConnections = 4`: three segments of planned size `333`, covering
`[0, 999]`. -/
theorem get_range_list_count_and_coverage_witness :
    1 ≤ 1000 ∧ 1 ≤ 300 ∧ 1 ≤ 4 ∧
      ((get_range_list 1000 300 4).length = min (max (1000 / 300) 1) 4 ∧
        coversB 0 (1000 - 1) (get_range_list_ranges 1000 300 4) = true ∧
        get_range_list 1000 300 4
          = (get_range_list_ranges 1000 300 4).map some) :=
  ⟨by decide, by decide, by decide,
    get_range_list_count_and_coverage 1000 300 4 (by decide) (by decide)
      (by decide)⟩

/-- Correspondence: `get_seg_size` is determined by the parse layer: the `b - a + 1` / `0`
formula on a successful parse, `0` on the `except` path. -/
lemma get_seg_size_eq_parse (seg : String) :
    get_seg_size seg =
      match parse_seg seg with
      | some (a, b) => if b > 0 then b - a + 1 else 0
      | none => 0 := by
  unfold get_seg_size parse_seg
  cases ((split_on_dash seg.data).get? 0).bind parse_int <;>
    cases ((split_on_dash seg.data).get? 1).bind parse_int <;> rfl

/-- Evaluation of `get_seg_size` on a successfully parsed range `(a, b)`:
`b - a + 1` if `b > 0` else `0`. -/
lemma get_seg_size_eq_of_parse (seg : String) (a b : Int)
    (h : parse_seg seg = some (a, b)) :
    get_seg_size seg = if b > 0 then b - a + 1 else 0 := by
  rw [get_seg_size_eq_parse, h]

/-- Evaluation of `get_seg_size` on a malformed range name (the `except` path): `0`. -/
lemma get_seg_size_eq_of_parse_fail (seg : String)
    (h : parse_seg seg = none) : get_seg_size seg = 0 := by
  rw [get_seg_size_eq_parse, h]

/-- C5: `get_seg_size` never fails: it is total, returns `end - start + 1`
whenever the parsed end bound is positive, returns `0` when the parsed end
bound is the `≤ 0` sentinel, and degrades to `0` on every malformed input
(where `parse_seg` fails, the Python `except` path); in particular the
range name `"200-1000"` gives `801`. -/
theorem get_seg_size_total_spec :
    (∀ (seg : String) (a b : Int),
        parse_seg seg = some (a, b) → 0 < b → get_seg_size seg = b - a + 1) ∧
    (∀ (seg : String) (a b : Int),
        parse_seg seg = some (a, b) → b ≤ 0 → get_seg_size seg = 0) ∧
    (∀ seg : String, parse_seg seg = none → get_seg_size seg = 0) ∧
    get_seg_size "200-1000" = 801 := by
  refine ⟨?_, ?_, ?_, by decide⟩
  · intro seg a b h hb
    rw [get_seg_size_eq_of_parse seg a b h, if_pos hb]
  · intro seg a b h hb
    rw [get_seg_size_eq_of_parse seg a b h, if_neg (by omega)]
  · intro seg h
    exact get_seg_size_eq_of_parse_fail seg h

/-- Witness for C5: the positive case at `"5-9"` and the malformed case at
`"abc"`, discharged concretely. -/
theorem get_seg_size_total_spec_witness :
    parse_seg "5-9" = some (5, 9) ∧ (0 : Int) < 9 ∧
      get_seg_size "5-9" = 9 - 5 + 1 ∧
      parse_seg "abc" = none ∧ get_seg_size "abc" = 0 :=
  ⟨by decide, by decide,
    get_seg_size_total_spec.1 "5-9" 5 9 (by decide) (by decide),
    by decide,
    get_seg_size_total_spec.2.2.1 "abc" (by decide)⟩

/-- C6 counterexample: on the inverted range `(100, 50)` — start exceeding
end — `get_seg_size` returns the negative value `-49`, so it does not
return a non-negative integer on every input range. -/
theorem get_seg_size_negative_on_inverted_range :
    get_seg_size "100-50" = -49 ∧ get_seg_size "100-50" < 0 := by
  exact ⟨by decide, by decide⟩

/-- C6 (amended): `get_seg_size` returns a non-negative integer on every
range whose parsed bounds satisfy `start ≤ end + 1`, on every range whose
parsed end is `≤ 0`, and on every malformed input — but on an inverted
range with positive end and `start > end + 1` (e.g. `(100, 50)`) it
returns the negative value `end - start + 1`. -/
theorem get_seg_size_nonneg_unless_inverted :
    (∀ (seg : String) (a b : Int),
        parse_seg seg = some (a, b) → a ≤ b + 1 ∨ b ≤ 0 →
          0 ≤ get_seg_size seg) ∧
    (∀ seg : String, parse_seg seg = none → 0 ≤ get_seg_size seg) ∧
    (∀ (seg : String) (a b : Int),
        parse_seg seg = some (a, b) → 0 < b → b + 1 < a →
          get_seg_size seg = b - a + 1 ∧ get_seg_size seg < 0) := by
  refine ⟨?_, ?_, ?_⟩
  · intro seg a b h hab
    rw [get_seg_size_eq_of_parse seg a b h]
    rcases hab with hab | hab
    · split <;> omega
    · split <;> omega
  · intro seg h
    rw [get_seg_size_eq_of_parse_fail seg h]
  · intro seg a b h hb hba
    rw [get_seg_size_eq_of_parse seg a b h, if_pos hb]
    omega

/-- Witness for C6 (amended): non-negativity discharged at the ordered
range `"5-9"` and at the sentinel `"0-0"`. -/
theorem get_seg_size_nonneg_unless_inverted_witness :
    (parse_seg "5-9" = some (5, 9) ∧ ((5 : Int) ≤ 9 + 1 ∨ (9 : Int) ≤ 0) ∧
        0 ≤ get_seg_size "5-9") ∧
      (parse_seg "0-0" = some (0, 0) ∧ ((0 : Int) ≤ 0 + 1 ∨ (0 : Int) ≤ 0) ∧
        0 ≤ get_seg_size "0-0") :=
  ⟨⟨by decide, Or.inl (by decide),
      get_seg_size_nonneg_unless_inverted.1 "5-9" 5 9 (by decide)
        (Or.inl (by decide))⟩,
    ⟨by decide, Or.inr (by decide),
      get_seg_size_nonneg_unless_inverted.1 "0-0" 0 0 (by decide)
        (Or.inr (by decide))⟩⟩

/-- C8: every invocation of `set_curl_options` sets the proxy option to the
configured value (`config.proxy` verbatim — possibly the empty string,
which for curl means explicit no-proxy; the option is always set, never
left to inherit), enables redirect following (`FOLLOWLOCATION = 1`), and
caps redirects at exactly `MAXREDIRS = 10`. -/
theorem set_curl_options_proxy_and_redirect_cap (cfg : CurlConfig)
    (http_headers : Option (List (String × String))) (c : CurlHandle) :
    (set_curl_options cfg http_headers c).proxy = some cfg.proxy ∧
    (set_curl_options cfg http_headers c).followlocation = some 1 ∧
    (set_curl_options cfg http_headers c).maxredirs = some 10 := by
  by_cases h1 : cfg.referer_url = "" <;>
    by_cases h2 : cfg.use_cookies <;>
      by_cases h3 : cfg.username = "" <;>
        by_cases h4 : cfg.password = "" <;>
          by_cases h5 : 4 ≤ cfg.log_level <;>
            simp [set_curl_options, h1, h2, h3, h4, h5]

/-- A concrete configuration with a fixed referer, to exhibit the
`AUTOREFERER` slip of `set_curl_options` (C7). -/
def referer_cfg : CurlConfig :=
  { HEADERS := [("Accept", "*/*")]
    proxy := ""
    referer_url := "http://example.com/page"
    use_cookies := false
    cookie_file_path := ""
    username := ""
    password := ""
    log_level := 2 }

/-- C7 (the code's behavior, contradicting the claim): the trailing
unconditional `c.setopt(pycurl.AUTOREFERER, 1)` at `utils.py` line 130
leaves automatic referer propagation enabled on *every* invocation of
`set_curl_options`, even when a fixed referer is configured — although the
referer branch at lines 89-93 (whose `else` is the only intended
`AUTOREFERER` site) clearly intends propagation to be off in that case.
Concretely, with `referer_cfg` the handle ends with both
`REFERER = "http://example.com/page"` and `AUTOREFERER = 1`. -/
theorem set_curl_options_autoreferer_always_enabled :
    (∀ (cfg : CurlConfig) (http_headers : Option (List (String × String)))
        (c : CurlHandle),
        (set_curl_options cfg http_headers c).autoreferer = some 1) ∧
    (set_curl_options referer_cfg none fresh_handle).referer =
      some "http://example.com/page" ∧
    (set_curl_options referer_cfg none fresh_handle).autoreferer = some 1 := by
  refine ⟨?_, by decide, by decide⟩
  intro cfg http_headers c
  by_cases h1 : cfg.referer_url = "" <;>
    by_cases h2 : cfg.use_cookies <;>
      by_cases h3 : cfg.username = "" <;>
        by_cases h4 : cfg.password = "" <;>
          by_cases h5 : 4 ≤ cfg.log_level <;>
            simp [set_curl_options, h1, h2, h3, h4, h5]

lemma foldl_append_eq_join : ∀ (l : List String) (b : String),
    l.foldl (fun r m => r ++ m) b = b ++ String.join l := by
  intro l
  induction l with
  | nil => intro b; simp [String.join]
  | cons m t ih =>
    intro b
    have hjoin : String.join (m :: t) = m ++ String.join t := by
      show (m :: t).foldl (fun r s => r ++ s) "" = m ++ String.join t
      rw [List.foldl_cons, ih ("" ++ m), String.empty_append]
    rw [List.foldl_cons, ih (b ++ m), hjoin, String.append_assoc]

/-- A failed flush (`writeOk = false`) still drains the queue into the
buffer, prints the error, and retains the whole buffer; the file is
untouched. -/
lemma drainStep_failed (s : LogState) :
    drainStep false s =
      { queue := [], buffer := s.buffer ++ String.join s.queue,
        file := s.file } := by
  unfold drainStep
  rw [foldl_append_eq_join]
  simp

/-- A successful flush appends queue and buffer to the file in order and
clears both. -/
lemma drainStep_ok (s : LogState) :
    drainStep true s =
      { queue := [], buffer := "",
        file := s.file ++ (s.buffer ++ String.join s.queue) } := by
  unfold drainStep
  rw [foldl_append_eq_join]
  by_cases h : s.buffer ++ String.join s.queue = ""
  · simp [h, String.append_empty]
  · simp [h]

lemma log_recorder_run_step (a : List String) (w : Bool)
    (rest : List LogEvent) (s : LogState) :
    log_recorder_run (⟨a, false, w⟩ :: rest) s
      = log_recorder_run rest
          (drainStep w ⟨s.queue ++ a, s.buffer, s.file⟩) := rfl

lemma log_recorder_run_term (a : List String) (w : Bool)
    (rest : List LogEvent) (s : LogState) :
    log_recorder_run (⟨a, true, w⟩ :: rest) s
      = ⟨s.queue ++ a, s.buffer, s.file⟩ := rfl

/-- C1 counterexample: one record (`"record 1\n"`) is enqueued before the
termination flag is raised; on the next iteration the loop observes
`config.terminate` and `break`s at `utils.py` line 781, *before* the
queue-drain and flush at lines 783-794 — so the log file stays empty and
the enqueued record is never written, contrary to the claim that the last
partial buffer is flushed on the iteration observing termination. -/
theorem log_recorder_record_lost_at_terminate :
    (log_recorder_run [⟨["record 1\n"], true, true⟩]
        ⟨[], "", ""⟩).file = "" ∧
    "record 1\n" ≠ "" := by
  exact ⟨rfl, by decide⟩

/-- C1 (amended): when the drain loop observes the termination flag it
exits immediately *without* draining or flushing, so records enqueued
after the last completed drain cycle are lost; the log file contains all
`N` records, concatenated in enqueue order (each newline-terminated
exactly when the producer terminated it), only if a successful drain cycle
ran after the last enqueue and before the flag was observed. -/
theorem log_recorder_flushes_only_before_terminate (records : List String) :
    (log_recorder_run [⟨records, false, true⟩, ⟨[], true, true⟩]
        ⟨[], "", ""⟩).file = String.join records ∧
    (log_recorder_run [⟨records, true, true⟩] ⟨[], "", ""⟩).file = "" := by
  constructor
  · rw [log_recorder_run_step, drainStep_ok]
    rw [log_recorder_run_term]
    simp [String.empty_append]
  · rw [log_recorder_run_term]

/-- C9: a disk-write failure during one drain cycle retains the whole
unflushed buffer in memory (the error is printed, nothing is discarded),
and the next successful cycle appends exactly the retained records followed
by the newly arrived ones: after one failed flush and one successful flush
no record is lost and none is duplicated. -/
theorem log_recorder_failed_flush_loses_nothing
    (r1 r2 : List String) (f : String) :
    (log_recorder_run [⟨r1, false, false⟩, ⟨r2, false, true⟩]
        ⟨[], "", f⟩).file = f ++ (String.join r1 ++ String.join r2) ∧
    (log_recorder_run [⟨r1, false, false⟩, ⟨r2, false, true⟩]
        ⟨[], "", f⟩).buffer = "" ∧
    (log_recorder_run [⟨r1, false, false⟩, ⟨r2, false, true⟩]
        ⟨[], "", f⟩).queue = [] := by
  rw [log_recorder_run_step, drainStep_failed]
  rw [log_recorder_run_step, drainStep_ok]
  simp [String.empty_append]
  exact ⟨rfl, rfl, rfl⟩
